import Mathlib

/-!
Shallow embedding of the tab/pane coordination logic of
src/src/cascadia/TerminalApp/Tab.cpp.

Conventions of the embedding:
* WinRT colors (Windows.UI.Color) become records of byte-valued channels.
* The pane tree (class Pane, whose implementation file is not part of the
  sources under study) is modelled from the spec as a binary tree of leaves
  carrying an id, an active flag, a profile and an optional terminal control.
* Asynchronous (coroutine) methods are split into their synchronous prefix
  (everything before the first co_await) and a resumed continuation taking a
  Boolean that tells whether the weak reference to the Tab resolved
  (whether the Tab is still alive at resumption time).
* Events raised to external observers are accumulated in an event log inside
  the Tab state; XAML themed-resource overrides become an association list
  keyed by the fixed resource names used in the source.
-/

namespace Terminal

/-- A Windows.UI.Color: alpha, red, green and blue channels (bytes). -/
structure Color where
  a : Nat
  r : Nat
  g : Nat
  b : Nat
deriving DecidableEq

/-- Windows.UI.Colors.Black, the dark foreground used on bright backgrounds. -/
def Color.black : Color := ⟨255, 0, 0, 0⟩

/-- Windows.UI.Colors.White, the light foreground used on dark backgrounds. -/
def Color.white : Color := ⟨255, 255, 255, 255⟩

/-- Modelled from the spec: ColorHelper::IsBrightColor (ColorHelper.cpp is not
among the sources under study). Per the spec it is a perceptual brightness
test of the color against a fixed cutoff; here the ITU-R BT.601 perceived
brightness 0.299 r + 0.587 g + 0.114 b, scaled by 1000, against the midpoint
cutoff 128. -/
def IsBrightColor (c : Color) : Bool :=
  299 * c.r + 587 * c.g + 114 * c.b ≥ 128000

/-- Modelled from the spec: ColorHelper::GetAccentColor (ColorHelper.cpp is
not among the sources under study), the secondary hover/accent shade derived
from the chosen color: a darker shade of a bright color, a lighter shade of a
dark one. -/
def GetAccentColor (c : Color) : Color :=
  if IsBrightColor c then ⟨c.a, c.r * 3 / 4, c.g * 3 / 4, c.b * 3 / 4⟩
  else ⟨c.a, (c.r + 255) / 2, (c.g + 255) / 2, (c.b + 255) / 2⟩

/-- The externally owned terminal control (TermControl) at a leaf, reduced to
the state the Tab logic reads and writes: its title and its scroll offset. -/
structure TermControl where
  title : String
  scrollOffset : Int
deriving DecidableEq

/-- winrt::TerminalApp::SplitState, the orientation requested for a split. -/
inductive SplitState where
  | automatic
  | vertical
  | horizontal
deriving DecidableEq

/-- Modelled from the spec: the pane tree (class Pane is not among the sources
under study). A leaf holds a session (id, active flag, profile, optional
hosted control); an internal node is a binary split with an orientation. -/
inductive Pane where
  | leaf (id : Nat) (active : Bool) (profile : Nat) (control : Option TermControl)
  | node (splitType : SplitState) (first second : Pane)
deriving DecidableEq

/-- Modelled from the spec: Pane::ClearActive clears the active flag on every
leaf of the tree. -/
def Pane.clearActive : Pane → Pane
  | .leaf id _ prof c => .leaf id false prof c
  | .node t a b => .node t a.clearActive b.clearActive

/-- Modelled from the spec: Pane::SetActive on the pane with the given id sets
that leaf's active flag. -/
def Pane.setActive : Pane → Nat → Pane
  | .leaf id act prof c, target => if id = target then .leaf id true prof c else .leaf id act prof c
  | .node t a b, target => .node t (a.setActive target) (b.setActive target)

/-- Modelled from the spec: Pane::GetTerminalControl of the pane with the given
id, the control hosted by that leaf (none when there is no such leaf or the
leaf hosts no control). -/
def Pane.findControl : Pane → Nat → Option TermControl
  | .leaf id _ _ c, target => if id = target then c else none
  | .node _ a b, target =>
      match a.findControl target with
      | some c => some c
      | none => b.findControl target

/-- Modelled from the spec: Pane::Split replaces the target leaf in place with
a split node whose first child is a leaf keeping the original session and
whose second child is a leaf holding the new profile and control. The two new
leaves get the fresh ids n and n + 1, in that order. -/
def Pane.splitAt : Pane → Nat → SplitState → Nat → TermControl → Nat → Pane
  | .leaf id act prof c, target, t, newProf, ctrl, n =>
      if id = target then
        .node t (.leaf n act prof c) (.leaf (n + 1) false newProf (some ctrl))
      else .leaf id act prof c
  | .node ty a b, target, t, newProf, ctrl, n =>
      .node ty (a.splitAt target t newProf ctrl n) (b.splitAt target t newProf ctrl n)

/-- An event raised by the Tab to external observers (DEFINE_EVENT lines of
Tab.cpp, plus the Closed handlers wired in the constructor). -/
inductive TabEvent where
  | closed
  | activePaneChanged
  | colorSelected (c : Color)
  | colorCleared
deriving DecidableEq

/-- Whether an event is the ActivePaneChanged notification. -/
def isActivePaneChangedEvent : TabEvent → Bool
  | TabEvent.activePaneChanged => true
  | _ => false

/-- Whether an event is the ColorCleared notification. -/
def isColorClearedEvent : TabEvent → Bool
  | TabEvent.colorCleared => true
  | _ => false

/-- Number of ActivePaneChanged notifications in an event log. -/
def countAPC (es : List TabEvent) : Nat :=
  (es.filter isActivePaneChangedEvent).length

/-- Number of ColorCleared notifications in an event log. -/
def countCC (es : List TabEvent) : Nat :=
  (es.filter isColorClearedEvent).length

/-- The fixed XAML resource keys used by _SetTabColor and _ResetTabColor,
as an enumeration (one constructor per string key of the source). -/
inductive ResKey where
  | headerBackground
  | headerBackgroundSelected
  | headerBackgroundPointerOver
  | headerBackgroundPressed
  | headerForeground
  | headerForegroundSelected
  | headerForegroundPointerOver
  | headerForegroundPressed
  | buttonForegroundActiveTab
deriving DecidableEq

/-- The themed-override dictionary of the TabViewItem, as an association list. -/
abbrev ResourceMap := List (ResKey × Color)

/-- Lookup in the themed-override dictionary. -/
def lookupRes : ResourceMap → ResKey → Option Color
  | [], _ => none
  | (k', v) :: rest, k => if k' = k then some v else lookupRes rest k

/-- ResourceDictionary.HasKey. -/
def hasKeyRes (m : ResourceMap) (k : ResKey) : Bool :=
  (lookupRes m k).isSome

/-- ResourceDictionary.Remove: drops every entry stored under the key. -/
def removeRes : ResourceMap → ResKey → ResourceMap
  | [], _ => []
  | (k', v) :: rest, k =>
      if k' = k then removeRes rest k else (k', v) :: removeRes rest k

/-- ResourceDictionary.Insert: replaces whatever was stored under the key. -/
def insertRes (m : ResourceMap) (k : ResKey) (v : Color) : ResourceMap :=
  (k, v) :: removeRes m k

/-- The keys cleared by _ResetTabColor, in the order of its keys array. -/
def tabColorKeys : List ResKey :=
  [ResKey.headerBackground,
   ResKey.headerBackgroundSelected,
   ResKey.headerBackgroundPointerOver,
   ResKey.headerForeground,
   ResKey.headerForegroundSelected,
   ResKey.headerForegroundPointerOver,
   ResKey.headerBackgroundPressed,
   ResKey.headerForegroundPressed,
   ResKey.buttonForegroundActiveTab]

/-- One iteration of the removal loop of _ResetTabColor: remove the key if the
dictionary has it. -/
def clearColorStep (acc : ResourceMap) (k : ResKey) : ResourceMap :=
  if hasKeyRes acc k then removeRes acc k else acc

/-- The key of a KeyUp event in the rename text box, as dispatched by the
switch on e.OriginalKey(). -/
inductive VirtualKey where
  | enter
  | escape
  | other
deriving DecidableEq

/-- The state of one Tab object: the pane tree, the cached active-pane id, the
focus flags, the title/rename state, the color state, the icon state, the
themed-resource dictionary of its TabViewItem, and the log of raised events.
controlFocusCount counts the TermControl.Focus(Programmatic) calls issued, and
visualRefreshes the _RefreshVisualState passes. -/
structure TabState where
  rootPane : Pane
  activePane : Nat
  focused : Bool
  controlInitialized : Bool
  runtimeTabText : String
  inRename : Bool
  renameBox : Option String
  tabColor : Option Color
  lastIconPath : String
  iconSource : Option String
  title : String
  resources : ResourceMap
  visualRefreshes : Nat
  controlFocusCount : Nat
  nextId : Nat
  events : List TabEvent
deriving DecidableEq

/-- GetColoredIcon, the external icon loader: modelled as the path it loads. -/
def GetColoredIcon (path : String) : String := path

/-- Tab::GetActiveTerminalControl: the control of the active pane. -/
def Tab.GetActiveTerminalControl (s : TabState) : Option TermControl :=
  Pane.findControl s.rootPane s.activePane

/-- Tab::GetActiveTitle: the runtime tab text when nonempty, else the active
control's title, else the empty string. -/
def Tab.GetActiveTitle (s : TabState) : String :=
  if s.runtimeTabText.isEmpty = false then s.runtimeTabText
  else
    match Tab.GetActiveTerminalControl s with
    | some c => c.title
    | none => ""

/-- Tab::_ConstructTabRenameBox: if the header already carries a rename text
box this does nothing; otherwise it creates the box seeded with tabText. -/
def Tab.ConstructTabRenameBox (s : TabState) (tabText : String) : TabState :=
  if s.renameBox.isSome then s else { s with renameBox := some tabText }

/-- Tab::_UpdateTabHeader: outside a rename, publish the active title as the
tab's text; during a rename, construct the rename box seeded with it. -/
def Tab.UpdateTabHeader (s : TabState) : TabState :=
  let tabText := Tab.GetActiveTitle s
  if s.inRename = false then { s with title := tabText }
  else Tab.ConstructTabRenameBox s tabText

/-- Tab::_UpdateTitle, resumed after its co_await: when the weak reference to
the Tab still resolves, publish the active title and update the header;
otherwise do nothing. -/
def Tab.UpdateTitleResume (s : TabState) (alive : Bool) : TabState :=
  if alive then Tab.UpdateTabHeader { s with title := Tab.GetActiveTitle s } else s

/-- Tab::_UpdateActivePane: clear the active flags of the whole tree, mark the
given pane active, cache it, refresh the title, and raise ActivePaneChanged. -/
def Tab.UpdateActivePane (s : TabState) (pane : Nat) : TabState :=
  let s1 := { s with rootPane := (s.rootPane.clearActive).setActive pane, activePane := pane }
  let s2 := Tab.UpdateTitleResume s1 true
  { s2 with events := s2.events ++ [TabEvent.activePaneChanged] }

/-- The GotFocus handler attached by Tab::_AttachEventHandlersToPane: when the
Tab is still alive and the sender differs from the cached active pane, update
the active pane; otherwise do nothing. -/
def Tab.onPaneGotFocus (s : TabState) (alive : Bool) (sender : Nat) : TabState :=
  if alive = true ∧ sender ≠ s.activePane then Tab.UpdateActivePane s sender else s

/-- Tab::SplitPane: split the active pane, point the cache at the first new
leaf, then immediately call _UpdateActivePane on the second new leaf. The two
new leaves get ids s.nextId (first returned leaf, keeping the original
session) and s.nextId + 1 (second returned leaf, holding the new control). -/
def Tab.SplitPane (s : TabState) (splitType : SplitState) (profile : Nat)
    (control : TermControl) : TabState :=
  let first := s.nextId
  let second := s.nextId + 1
  let root := Pane.splitAt s.rootPane s.activePane splitType profile control s.nextId
  let s1 := { s with rootPane := root, activePane := first, nextId := s.nextId + 2 }
  Tab.UpdateActivePane s1 second

/-- Tab::_Focus: a no-op until the control reports initialization; afterwards
it marks the Tab focused and transfers programmatic focus to the active
control when there is one. -/
def Tab.Focus (s : TabState) : TabState :=
  if s.controlInitialized = false then s
  else
    let s1 := { s with focused := true }
    match Tab.GetActiveTerminalControl s1 with
    | some _ => { s1 with controlFocusCount := s1.controlFocusCount + 1 }
    | none => s1

/-- Tab::SetFocused: record the new focus state and, when gaining focus, run
_Focus. -/
def Tab.SetFocused (s : TabState) (focused : Bool) : TabState :=
  let s1 := { s with focused := focused }
  if focused then Tab.Focus s1 else s1

/-- The TerminalInitialized handler attached by
Tab::_AttachEventHandlersToControl: when the Tab is still alive, record that
the control finished initializing and run _Focus. -/
def Tab.onTerminalInitialized (s : TabState) (alive : Bool) : TabState :=
  if alive then Tab.Focus { s with controlInitialized := true } else s

/-- Tab::UpdateIcon, synchronous prefix: when the path equals the last applied
icon path return the state unchanged with false (the coroutine returns before
its co_await); otherwise record the path and return true (the asynchronous
reload proceeds). -/
def Tab.UpdateIconStart (s : TabState) (iconPath : String) : TabState × Bool :=
  if iconPath = s.lastIconPath then (s, false)
  else ({ s with lastIconPath := iconPath }, true)

/-- Tab::UpdateIcon, resumed after its co_await: when the weak reference to
the Tab still resolves, load the colored icon from the recorded path and set
it as the icon source; otherwise do nothing. -/
def Tab.UpdateIconResume (s : TabState) (alive : Bool) : TabState :=
  if alive then { s with iconSource := some (GetColoredIcon s.lastIconPath) } else s

/-- Tab::Scroll, resumed after its co_await: the handler holds a strong
reference to the control it captured and performs the scroll on it; the source
has no check of the Tab's liveness on this path, so the result does not depend
on tabAlive. -/
def Tab.ScrollResume (control : TermControl) (delta : Int) (tabAlive : Bool) :
    TermControl :=
  { control with scrollOffset := control.scrollOffset + delta }

/-- Tab::_RefreshVisualState: toggles the visual states of the TabViewItem;
modelled as one presentation refresh. -/
def Tab.RefreshVisualState (s : TabState) : TabState :=
  { s with visualRefreshes := s.visualRefreshes + 1 }

/-- Tab::_SetTabColor, the lambda dispatched to the UI thread: when the weak
reference to the Tab still resolves, pick the foreground from the brightness
of the color, derive the hover shade and the transparent deselected variant,
insert the nine themed overrides, refresh the visual state, record the color
and raise ColorSelected. -/
def Tab.SetTabColorResume (s : TabState) (color : Color) (alive : Bool) : TabState :=
  if alive = false then s
  else
    let fontColor := if IsBrightColor color then Color.black else Color.white
    let hoverColor := GetAccentColor color
    let deselectedTabColor : Color := { color with a := 64 }
    let res := insertRes s.resources ResKey.headerBackgroundSelected color
    let res := insertRes res ResKey.headerBackground deselectedTabColor
    let res := insertRes res ResKey.headerBackgroundPointerOver hoverColor
    let res := insertRes res ResKey.headerBackgroundPressed color
    let res := insertRes res ResKey.headerForeground fontColor
    let res := insertRes res ResKey.headerForegroundSelected fontColor
    let res := insertRes res ResKey.headerForegroundPointerOver fontColor
    let res := insertRes res ResKey.headerForegroundPressed fontColor
    let res := insertRes res ResKey.buttonForegroundActiveTab fontColor
    let s1 := Tab.RefreshVisualState { s with resources := res }
    { s1 with
      tabColor := some color,
      events := s1.events ++ [TabEvent.colorSelected color] }

/-- Tab::_ResetTabColor: when the weak reference to the Tab resolves, remove
each themed-override key the dictionary has, refresh the visual state, clear
the recorded color and raise ColorCleared. -/
def Tab.ResetTabColor (s : TabState) (alive : Bool) : TabState :=
  if alive = false then s
  else
    let res := tabColorKeys.foldl clearColorStep s.resources
    let s1 := Tab.RefreshVisualState { s with resources := res }
    { s1 with tabColor := none, events := s1.events ++ [TabEvent.colorCleared] }

/-- The LostFocus handler of the rename text box: when the Tab is alive and
the sender is the text box, commit the box's text as the runtime tab text,
leave rename mode and refresh the title. -/
def Tab.renameLostFocus (s : TabState) (alive : Bool) : TabState :=
  match s.renameBox, alive with
  | some text, true =>
      Tab.UpdateTitleResume { s with runtimeTabText := text, inRename := false } true
  | _, _ => s

/-- The KeyUp handler of the rename text box: on Enter, commit the box's text
and fall through to the Escape case; on Escape, write the runtime tab text
back into the box, leave rename mode and refresh the title; otherwise do
nothing. Guarded by the Tab being alive and the sender being the text box. -/
def Tab.renameKeyUp (s : TabState) (alive : Bool) (key : VirtualKey) : TabState :=
  match s.renameBox, alive with
  | some text, true =>
      match key with
      | VirtualKey.enter =>
          let s1 := { s with runtimeTabText := text }
          let s2 := { s1 with renameBox := some s1.runtimeTabText, inRename := false }
          Tab.UpdateTitleResume s2 true
      | VirtualKey.escape =>
          let s2 := { s with renameBox := some s.runtimeTabText, inRename := false }
          Tab.UpdateTitleResume s2 true
      | VirtualKey.other => s
  | _, _ => s

/-- The display-title rule in the words of the spec: the runtime title
override if set, else the active leaf's session title, else the empty string
when no session exists. -/
def specGetDisplayTitle (s : TabState) : String :=
  if s.runtimeTabText ≠ "" then s.runtimeTabText
  else
    match Tab.GetActiveTerminalControl s with
    | some c => c.title
    | none => ""

/-- A concrete control hosted by the initial leaf of the sample tab. -/
def ctrl0 : TermControl := { title := "t0", scrollOffset := 0 }

/-- A concrete control handed to SplitPane as the new pane's control. -/
def ctrlA : TermControl := { title := "tA", scrollOffset := 0 }

/-- A freshly created Tab hosting one leaf (id 0, active) with ctrl0. -/
def tab0 : TabState where
  rootPane := Pane.leaf 0 true 0 (some ctrl0)
  activePane := 0
  focused := true
  controlInitialized := true
  runtimeTabText := ""
  inRename := false
  renameBox := none
  tabColor := none
  lastIconPath := ""
  iconSource := none
  title := ""
  resources := []
  visualRefreshes := 0
  controlFocusCount := 0
  nextId := 1
  events := []

/-- The sample tab before it gained focus and before its control finished
initializing. -/
def tab3 : TabState := { tab0 with focused := false, controlInitialized := false }

/-- The title pipeline (publish title, update header, maybe construct the
rename box) never touches the runtime tab text. -/
theorem updateTitleResume_runtimeTabText (s : TabState) (b : Bool) :
    (Tab.UpdateTitleResume s b).runtimeTabText = s.runtimeTabText := by
  unfold Tab.UpdateTitleResume Tab.UpdateTabHeader Tab.ConstructTabRenameBox
  split_ifs <;> simp

/-- The title pipeline never touches the pane tree. -/
theorem updateTitleResume_rootPane (s : TabState) (b : Bool) :
    (Tab.UpdateTitleResume s b).rootPane = s.rootPane := by
  unfold Tab.UpdateTitleResume Tab.UpdateTabHeader Tab.ConstructTabRenameBox
  split_ifs <;> simp

/-- The title pipeline never touches the cached active pane. -/
theorem updateTitleResume_activePane (s : TabState) (b : Bool) :
    (Tab.UpdateTitleResume s b).activePane = s.activePane := by
  unfold Tab.UpdateTitleResume Tab.UpdateTabHeader Tab.ConstructTabRenameBox
  split_ifs <;> simp

/-- The title pipeline never leaves or enters rename mode by itself. -/
theorem updateTitleResume_inRename (s : TabState) (b : Bool) :
    (Tab.UpdateTitleResume s b).inRename = s.inRename := by
  unfold Tab.UpdateTitleResume Tab.UpdateTabHeader Tab.ConstructTabRenameBox
  split_ifs <;> simp

/-- The title pipeline raises no Tab event. -/
theorem updateTitleResume_events (s : TabState) (b : Bool) :
    (Tab.UpdateTitleResume s b).events = s.events := by
  unfold Tab.UpdateTitleResume Tab.UpdateTabHeader Tab.ConstructTabRenameBox
  split_ifs <;> simp

/-- _UpdateActivePane caches exactly the pane it was handed. -/
theorem updateActivePane_activePane (s : TabState) (p : Nat) :
    (Tab.UpdateActivePane s p).activePane = p := by
  unfold Tab.UpdateActivePane
  simp [updateTitleResume_activePane]

/-- _UpdateActivePane appends exactly one ActivePaneChanged notification. -/
theorem updateActivePane_events (s : TabState) (p : Nat) :
    (Tab.UpdateActivePane s p).events = s.events ++ [TabEvent.activePaneChanged] := by
  unfold Tab.UpdateActivePane
  simp [updateTitleResume_events]

/-- Counting ActivePaneChanged distributes over appended logs. -/
theorem countAPC_append (a b : List TabEvent) :
    countAPC (a ++ b) = countAPC a + countAPC b := by
  simp [countAPC, List.filter_append]

/-- Counting ColorCleared distributes over appended logs. -/
theorem countCC_append (a b : List TabEvent) :
    countCC (a ++ b) = countCC a + countCC b := by
  simp [countCC, List.filter_append]

/-- The active title only depends on the runtime tab text, the tree and the
cached active pane. -/
theorem getActiveTitle_congr (s1 s2 : TabState)
    (h1 : s1.runtimeTabText = s2.runtimeTabText) (h2 : s1.rootPane = s2.rootPane)
    (h3 : s1.activePane = s2.activePane) :
    Tab.GetActiveTitle s1 = Tab.GetActiveTitle s2 := by
  unfold Tab.GetActiveTitle Tab.GetActiveTerminalControl
  rw [h1, h2, h3]

/-- Removing a key leaves no entry under that key. -/
theorem lookupRes_removeRes_self (m : ResourceMap) (k : ResKey) :
    lookupRes (removeRes m k) k = none := by
  induction m with
  | nil => rfl
  | cons hd tl ih =>
      obtain ⟨k', v⟩ := hd
      by_cases h : k' = k <;> simp [removeRes, lookupRes, h, ih]

/-- Removing some key never creates an entry under another key. -/
theorem lookupRes_removeRes_none (m : ResourceMap) (k k' : ResKey)
    (h : lookupRes m k = none) : lookupRes (removeRes m k') k = none := by
  induction m with
  | nil => rfl
  | cons hd tl ih =>
      obtain ⟨k2, v⟩ := hd
      have h3 : ¬ k2 = k := by
        intro hk
        rw [lookupRes, if_pos hk] at h
        exact Option.noConfusion h
      have h4 : lookupRes tl k = none := by
        simpa only [lookupRes, if_neg h3] using h
      by_cases h2 : k2 = k' <;> simp [removeRes, lookupRes, h2, h3, ih h4]

/-- Looking up a key that differs from the removed one is unchanged. -/
theorem lookupRes_removeRes_ne (m : ResourceMap) (k k' : ResKey) (h : ¬ k' = k) :
    lookupRes (removeRes m k') k = lookupRes m k := by
  induction m with
  | nil => rfl
  | cons hd tl ih =>
      obtain ⟨k2, v⟩ := hd
      by_cases h2 : k2 = k'
      · subst h2
        simp [removeRes, lookupRes, h, ih]
      · by_cases h3 : k2 = k
        · subst h3
          simp [removeRes, lookupRes, h2]
        · simp [removeRes, lookupRes, h2, h3, ih]

/-- Inserting a key stores its value under that key. -/
theorem lookupRes_insertRes_self (m : ResourceMap) (k : ResKey) (v : Color) :
    lookupRes (insertRes m k v) k = some v := by
  simp [insertRes, lookupRes]

/-- Inserting under a different key leaves a lookup unchanged. -/
theorem lookupRes_insertRes_ne (m : ResourceMap) (k k' : ResKey) (v : Color)
    (h : ¬ k' = k) : lookupRes (insertRes m k' v) k = lookupRes m k := by
  simp [insertRes, lookupRes, h, lookupRes_removeRes_ne m k k' h]

/-- One step of the _ResetTabColor loop leaves no entry under its key. -/
theorem lookupRes_clearColorStep_self (m : ResourceMap) (k : ResKey) :
    lookupRes (clearColorStep m k) k = none := by
  unfold clearColorStep
  split
  · exact lookupRes_removeRes_self m k
  · rename_i h
    cases hl : lookupRes m k with
    | none => rfl
    | some v => exact absurd (by simp [hasKeyRes, hl]) h

/-- One step of the _ResetTabColor loop never creates an entry. -/
theorem lookupRes_clearColorStep_none (m : ResourceMap) (k k' : ResKey)
    (h : lookupRes m k = none) : lookupRes (clearColorStep m k') k = none := by
  unfold clearColorStep
  split
  · exact lookupRes_removeRes_none m k k' h
  · exact h

/-- The _ResetTabColor loop preserves the absence of a key. -/
theorem lookupRes_foldl_clear_none (ks : List ResKey) (m : ResourceMap) (k : ResKey)
    (h : lookupRes m k = none) : lookupRes (ks.foldl clearColorStep m) k = none := by
  induction ks generalizing m with
  | nil => exact h
  | cons a tl ih => exact ih _ (lookupRes_clearColorStep_none m k a h)

/-- After the _ResetTabColor loop, every key it visited is absent. -/
theorem lookupRes_clearAll_none (ks : List ResKey) (m : ResourceMap) (k : ResKey)
    (hk : k ∈ ks) : lookupRes (ks.foldl clearColorStep m) k = none := by
  induction ks generalizing m with
  | nil => cases hk
  | cons a tl ih =>
      rcases List.mem_cons.mp hk with h | h
      · subst h
        exact lookupRes_foldl_clear_none tl _ k (lookupRes_clearColorStep_self m k)
      · exact ih _ h

/-- Every resource key is in the keys array of _ResetTabColor. -/
theorem resKey_mem_tabColorKeys (k : ResKey) : k ∈ tabColorKeys := by
  cases k <;> simp [tabColorKeys]

/-- UpdateIcon with the path already recorded returns before its co_await. -/
theorem updateIconStart_same (s : TabState) (p : String) (h : s.lastIconPath = p) :
    Tab.UpdateIconStart s p = (s, false) := by
  unfold Tab.UpdateIconStart
  rw [if_pos h.symm]

/-- _ResetTabColor rewrites the dictionary exactly by its removal loop. -/
theorem resetTabColor_resources (s : TabState) :
    (Tab.ResetTabColor s true).resources = tabColorKeys.foldl clearColorStep s.resources := by
  simp [Tab.ResetTabColor, Tab.RefreshVisualState]

/-- C1, counterexample: on the one-leaf tab, SplitPane hands out the new
leaves with ids 1 (first, keeping the original control ctrl0) and 2 (second,
holding the new control ctrlA), and afterwards the Tab's active pane is 2 —
the second returned leaf, not the first one as the claim states. -/
theorem C1_counterexample :
    (Tab.SplitPane tab0 SplitState.vertical 7 ctrlA).activePane = 2 ∧
    ¬ (Tab.SplitPane tab0 SplitState.vertical 7 ctrlA).activePane = 1 ∧
    Pane.findControl (Tab.SplitPane tab0 SplitState.vertical 7 ctrlA).rootPane 1 = some ctrl0 ∧
    Pane.findControl (Tab.SplitPane tab0 SplitState.vertical 7 ctrlA).rootPane 2 = some ctrlA := by
  decide

/-- C1, amended: after Tab::SplitPane completes, the second of the two leaves
returned by the split (id s.nextId + 1, the one holding the newly created
session) is the Tab's active pane — SplitPane first points the cache at the
first leaf but then immediately calls _UpdateActivePane on the second — and
exactly one ActivePaneChanged notification is raised; this holds for every
Tab state. -/
theorem C1_amended (s : TabState) (t : SplitState) (profile : Nat) (c : TermControl) :
    (Tab.SplitPane s t profile c).activePane = s.nextId + 1 ∧
    countAPC (Tab.SplitPane s t profile c).events = countAPC s.events + 1 := by
  unfold Tab.SplitPane
  constructor
  · simp [updateActivePane_activePane]
  · simp [updateActivePane_events, countAPC_append, countAPC, isActivePaneChangedEvent]

/-- C2, counterexample: invoking _UpdateActivePane twice in succession with
the same leaf (the already-active leaf 0 of the one-leaf tab) raises the
ActivePaneChanged notification twice, not exactly once — the function raises
it unconditionally on every call. -/
theorem C2_counterexample :
    countAPC (Tab.UpdateActivePane (Tab.UpdateActivePane tab0 0) 0).events = 2 ∧
    ¬ countAPC (Tab.UpdateActivePane (Tab.UpdateActivePane tab0 0) 0).events = 1 := by
  decide

/-- C2, amended: _UpdateActivePane itself raises ActivePaneChanged
unconditionally, once per call; the same-leaf guard lives in the GotFocus
handler attached to each pane, which calls _UpdateActivePane only when the
sender differs from the cached active pane — so delivering the focus-gained
signal twice from the same pane is idempotent and produces the notifications
of a single delivery. -/
theorem C2_amended (s : TabState) (p : Nat) :
    Tab.onPaneGotFocus (Tab.onPaneGotFocus s true p) true p = Tab.onPaneGotFocus s true p ∧
    countAPC (Tab.UpdateActivePane s p).events = countAPC s.events + 1 := by
  constructor
  · by_cases h : p = s.activePane
    · simp [Tab.onPaneGotFocus, h]
    · simp [Tab.onPaneGotFocus, h, updateActivePane_activePane]
  · simp [updateActivePane_events, countAPC_append, countAPC, isActivePaneChangedEvent]

/-- C3, counterexample: on a Tab that is not focused and whose control has not
finished initializing, the arrival of the one-shot TerminalInitialized signal
re-asserts focus unconditionally — it marks the Tab focused and transfers
programmatic focus to the active control — instead of leaving the unfocused
Tab's focus state unchanged as the claim states. -/
theorem C3_counterexample :
    tab3.focused = false ∧
    (Tab.onTerminalInitialized tab3 true).focused = true ∧
    (Tab.onTerminalInitialized tab3 true).controlFocusCount = 1 := by
  decide

/-- C3, amended: while the hosted control has not completed initialization,
_Focus is a complete no-op and SetFocused(true) transfers no focus to the
control (it only records the focus flag); when the TerminalInitialized signal
arrives, the Tab unconditionally marks itself focused and transfers focus to
the active control, regardless of whether the Tab was focused before. -/
theorem C3_amended (s : TabState) :
    Tab.Focus { s with controlInitialized := false } = { s with controlInitialized := false } ∧
    (Tab.SetFocused { s with controlInitialized := false } true).controlFocusCount
      = s.controlFocusCount ∧
    (Tab.onTerminalInitialized s true).focused = true ∧
    (Tab.onTerminalInitialized s true).controlInitialized = true := by
  refine ⟨?_, ?_, ?_, ?_⟩
  · simp [Tab.Focus]
  · simp [Tab.SetFocused, Tab.Focus]
  · unfold Tab.onTerminalInitialized Tab.Focus
    simp only [if_true]
    split
    · rename_i h
      exact Bool.noConfusion h
    · split <;> rfl
  · unfold Tab.onTerminalInitialized Tab.Focus
    simp only [if_true]
    split
    · rename_i h
      exact Bool.noConfusion h
    · split <;> rfl

/-- C4, counterexample: Tab::Scroll's resumed continuation has no liveness
check — resumed with the owning Tab already destroyed, it still performs the
scroll on the captured control (here moving the offset from 0 to 3) instead
of becoming a no-op as the claim states for every suspending operation. -/
theorem C4_counterexample :
    Tab.ScrollResume ctrl0 3 false = { title := "t0", scrollOffset := 3 } ∧
    ¬ Tab.ScrollResume ctrl0 3 false = ctrl0 := by
  decide

/-- C4, amended: the icon-update, title-update and set-color continuations
check the weak reference upon resumption and do nothing when the Tab has been
destroyed; the scroll continuation does not — it performs the scroll on the
control it captured regardless of the Tab's liveness. -/
theorem C4_amended (s : TabState) (c : Color) (ctrl : TermControl) (d : Int) :
    Tab.UpdateIconResume s false = s ∧
    Tab.UpdateTitleResume s false = s ∧
    Tab.SetTabColorResume s c false = s ∧
    Tab.ScrollResume ctrl d false = { ctrl with scrollOffset := ctrl.scrollOffset + d } := by
  exact ⟨rfl, rfl, rfl, rfl⟩

/-- C5, confirmed: the display title of GetActiveTitle equals the rule as the
spec states it — the runtime title override when one is set, otherwise the
active leaf's session title, otherwise the empty string when no session
exists. -/
theorem C5 (s : TabState) : Tab.GetActiveTitle s = specGetDisplayTitle s := by
  unfold Tab.GetActiveTitle specGetDisplayTitle
  rcases eq_or_ne s.runtimeTabText "" with h | h <;>
    simp [h, String.isEmpty_iff]

/-- C6, confirmed: in rename mode (the rename box holding the edited text),
Escape leaves the runtime tab text unchanged, exits rename mode and leaves
the displayed title unchanged; the box losing focus without a cancel commits
the edited text as the runtime title override and exits rename mode, exactly
as the explicit Enter confirm does. -/
theorem C6 (s : TabState) (text : String) :
    (Tab.renameKeyUp { s with renameBox := some text } true VirtualKey.escape).runtimeTabText
      = s.runtimeTabText ∧
    (Tab.renameKeyUp { s with renameBox := some text } true VirtualKey.escape).inRename
      = false ∧
    Tab.GetActiveTitle (Tab.renameKeyUp { s with renameBox := some text } true VirtualKey.escape)
      = Tab.GetActiveTitle s ∧
    (Tab.renameLostFocus { s with renameBox := some text } true).runtimeTabText = text ∧
    (Tab.renameLostFocus { s with renameBox := some text } true).inRename = false ∧
    (Tab.renameLostFocus { s with renameBox := some text } true).runtimeTabText
      = (Tab.renameKeyUp { s with renameBox := some text } true VirtualKey.enter).runtimeTabText := by
  refine ⟨?_, ?_, ?_, ?_, ?_, ?_⟩
  · simp [Tab.renameKeyUp, updateTitleResume_runtimeTabText]
  · simp [Tab.renameKeyUp, updateTitleResume_inRename]
  · apply getActiveTitle_congr <;>
      simp [Tab.renameKeyUp, updateTitleResume_runtimeTabText, updateTitleResume_rootPane,
        updateTitleResume_activePane]
  · simp [Tab.renameLostFocus, updateTitleResume_runtimeTabText]
  · simp [Tab.renameLostFocus, updateTitleResume_inRename]
  · simp [Tab.renameLostFocus, Tab.renameKeyUp, updateTitleResume_runtimeTabText]

/-- C7, confirmed: _SetTabColor chooses the foreground by the brightness test
(a bright background yields the dark Black foreground, a dark background the
light White one), pushes the selected/deselected/hover/pressed background
overrides — the deselected variant being the chosen color at alpha 64 — and
the foreground overrides, records the color as the Tab's color, and raises
exactly one ColorSelected notification carrying that color. -/
theorem C7 (s : TabState) (c : Color) :
    lookupRes (Tab.SetTabColorResume s c true).resources ResKey.headerForeground
      = some (if IsBrightColor c then Color.black else Color.white) ∧
    lookupRes (Tab.SetTabColorResume s c true).resources ResKey.headerForegroundSelected
      = some (if IsBrightColor c then Color.black else Color.white) ∧
    lookupRes (Tab.SetTabColorResume s c true).resources ResKey.headerForegroundPointerOver
      = some (if IsBrightColor c then Color.black else Color.white) ∧
    lookupRes (Tab.SetTabColorResume s c true).resources ResKey.headerForegroundPressed
      = some (if IsBrightColor c then Color.black else Color.white) ∧
    lookupRes (Tab.SetTabColorResume s c true).resources ResKey.buttonForegroundActiveTab
      = some (if IsBrightColor c then Color.black else Color.white) ∧
    lookupRes (Tab.SetTabColorResume s c true).resources ResKey.headerBackgroundSelected
      = some c ∧
    lookupRes (Tab.SetTabColorResume s c true).resources ResKey.headerBackgroundPressed
      = some c ∧
    lookupRes (Tab.SetTabColorResume s c true).resources ResKey.headerBackground
      = some { c with a := 64 } ∧
    lookupRes (Tab.SetTabColorResume s c true).resources ResKey.headerBackgroundPointerOver
      = some (GetAccentColor c) ∧
    (Tab.SetTabColorResume s c true).tabColor = some c ∧
    (Tab.SetTabColorResume s c true).events = s.events ++ [TabEvent.colorSelected c] := by
  refine ⟨?_, ?_, ?_, ?_, ?_, ?_, ?_, ?_, ?_, ?_, ?_⟩ <;>
    simp [Tab.SetTabColorResume, Tab.RefreshVisualState, lookupRes_insertRes_self,
      lookupRes_insertRes_ne]

/-- C8, counterexample: on a Tab with no color assigned, _ResetTabColor is not
silently absorbed — it raises the ColorCleared notification once, where the
claim says clearing an absent color raises no notification at all. -/
theorem C8_counterexample :
    tab0.tabColor = none ∧
    countCC (Tab.ResetTabColor tab0 true).events = 1 ∧
    ¬ countCC (Tab.ResetTabColor tab0 true).events = 0 := by
  decide

/-- C8, amended: _ResetTabColor always clears the recorded color and raises
exactly one ColorCleared notification, even when no color was assigned (the
removal loop is then a no-op on the dictionary, but the notification is still
raised); and after SetColor followed by ClearColor no themed override
remains, the recorded color is absent, and ColorCleared has fired exactly
once. -/
theorem C8_amended (s : TabState) (c : Color) :
    (Tab.ResetTabColor s true).tabColor = none ∧
    (Tab.ResetTabColor s true).events = s.events ++ [TabEvent.colorCleared] ∧
    (∀ k : ResKey,
      lookupRes (Tab.ResetTabColor (Tab.SetTabColorResume s c true) true).resources k = none) ∧
    countCC (Tab.ResetTabColor (Tab.SetTabColorResume s c true) true).events
      = countCC s.events + 1 := by
  refine ⟨?_, ?_, ?_, ?_⟩
  · simp [Tab.ResetTabColor, Tab.RefreshVisualState]
  · simp [Tab.ResetTabColor, Tab.RefreshVisualState]
  · intro k
    rw [resetTabColor_resources]
    exact lookupRes_clearAll_none tabColorKeys _ k (resKey_mem_tabColorKeys k)
  · have he : (Tab.SetTabColorResume s c true).events
        = s.events ++ [TabEvent.colorSelected c] := by
      simp [Tab.SetTabColorResume, Tab.RefreshVisualState]
    simp [Tab.ResetTabColor, Tab.RefreshVisualState, he, countCC_append, countCC,
      isColorClearedEvent]

/-- C9, confirmed: committing a rename whose box is empty — by blur or by the
Enter confirm — sets the runtime tab text to the empty string, and the title
logic treats that as absent: the display title is the active session's own
title again (or empty when no session exists), not an empty override. -/
theorem C9 (s : TabState) :
    (Tab.renameLostFocus { s with renameBox := some "" } true).runtimeTabText = "" ∧
    (Tab.renameKeyUp { s with renameBox := some "" } true VirtualKey.enter).runtimeTabText
      = "" ∧
    Tab.GetActiveTitle (Tab.renameLostFocus { s with renameBox := some "" } true)
      = (match Tab.GetActiveTerminalControl s with
         | some c => c.title
         | none => "") := by
  have hr : (Tab.renameLostFocus { s with renameBox := some "" } true).runtimeTabText = "" := by
    simp [Tab.renameLostFocus, updateTitleResume_runtimeTabText]
  refine ⟨hr, ?_, ?_⟩
  · simp [Tab.renameKeyUp, updateTitleResume_runtimeTabText]
  · unfold Tab.GetActiveTitle
    rw [hr]
    have hc : Tab.GetActiveTerminalControl (Tab.renameLostFocus { s with renameBox := some "" } true)
        = Tab.GetActiveTerminalControl s := by
      unfold Tab.GetActiveTerminalControl
      simp [Tab.renameLostFocus, updateTitleResume_rootPane, updateTitleResume_activePane]
    rw [hc, if_neg (by decide)]

/-- C10, confirmed: UpdateIcon called with the icon path already recorded as
last applied returns immediately — the state is unmodified and the
asynchronous reload is not started; consequently a full UpdateIcon followed
by a second call with the same path makes the second call a pure no-op. -/
theorem C10 (s : TabState) (p : String) (alive : Bool) :
    Tab.UpdateIconStart { s with lastIconPath := p } p
      = ({ s with lastIconPath := p }, false) ∧
    Tab.UpdateIconStart (Tab.UpdateIconResume (Tab.UpdateIconStart s p).1 alive) p
      = (Tab.UpdateIconResume (Tab.UpdateIconStart s p).1 alive, false) := by
  constructor
  · exact updateIconStart_same _ p rfl
  · have h1 : ((Tab.UpdateIconStart s p).1).lastIconPath = p := by
      unfold Tab.UpdateIconStart
      split_ifs with h <;> simp [h]
    have h2 : (Tab.UpdateIconResume (Tab.UpdateIconStart s p).1 alive).lastIconPath = p := by
      unfold Tab.UpdateIconResume
      split_ifs <;> simp [h1]
    exact updateIconStart_same _ p h2

end Terminal
